import Mathlib

/-!
Shallow embedding of the fpush push gateway, covering the acrobits
HTTP-token backend (fpush-acrobits/src/push.rs, fpush-acrobits/src/config.rs),
the connection-supervisor loop of main (fpush/src/main.rs) and the
demonstration HTTP endpoint (fpush/src/http_server.rs), together with
theorems checking the design claims against these definitions.
-/

set_option autoImplicit false

/-- Modelled from the spec: the push-outcome taxonomy, the PushError type of
the fpush-traits crate, whose source file is not among the provided sources.
The variants are exactly those referenced by fpush-acrobits/src/push.rs:
CertLoading (the spec's InitFailure), TokenBlocked, PushEndpointPersistent
(the spec's PermanentFailure), PushEndpointTmp (the spec's TransientFailure)
and Unknown carrying the raw provider code. -/
inductive PushError where
  | CertLoading
  | TokenBlocked
  | PushEndpointPersistent
  | PushEndpointTmp
  | Unknown (code : Nat)
deriving DecidableEq, Repr

/-- PushResult of fpush-traits: a Result whose error type is PushError. -/
abbrev PushResult (α : Type) := Except PushError α

/-- AcrobitsConfig (fpush-acrobits/src/config.rs): endpoint URL and
application id. -/
structure AcrobitsConfig where
  endpoint : String
  app_id : String
deriving DecidableEq, Repr

/-- The Default impl for AcrobitsConfig (fpush-acrobits/src/config.rs):
the documented default endpoint URL and an empty application id. -/
def AcrobitsConfig.default : AcrobitsConfig :=
  { endpoint := "https://pnm.cloudsoftphone.com/pnm2/send"
    app_id := "" }

/-- FpushAcrobits (fpush-acrobits/src/push.rs): the backend instance holding
its configuration; the reqwest client field carries no observable state in
this model. -/
structure FpushAcrobits where
  config : AcrobitsConfig
deriving DecidableEq, Repr

/-- FpushAcrobits::init (fpush-acrobits/src/push.rs): returns the
CertLoading error when the configured application id is empty, otherwise
constructs the backend instance around a fresh client and the cloned
configuration. -/
def FpushAcrobits.init (config : AcrobitsConfig) : PushResult FpushAcrobits :=
  if config.app_id.isEmpty then
    Except.error PushError.CertLoading
  else
    Except.ok { config := config }

/-- AcrobitsRequest (fpush-acrobits/src/push.rs): the request payload for
the provider's singlepush API. -/
structure AcrobitsRequest where
  verb : String
  app_id : String
  device_token : String
  message : String
deriving DecidableEq, Repr

/-- Serde serialization of AcrobitsRequest as an ordered field list, with
the rename attributes of fpush-acrobits/src/push.rs applied: verb, AppId,
DeviceToken, Message. -/
def AcrobitsRequest.toJsonFields (r : AcrobitsRequest) : List (String × String) :=
  [("verb", r.verb), ("AppId", r.app_id), ("DeviceToken", r.device_token),
   ("Message", r.message)]

/-- AcrobitsResponse (fpush-acrobits/src/push.rs): numeric provider status
code plus a free-text diagnostic field. -/
structure AcrobitsResponse where
  code : Nat
  response : String
deriving DecidableEq, Repr

/-- map_acrobits_response_to_error (fpush-acrobits/src/push.rs): maps the
provider status code, a u16, to the push outcome. -/
def map_acrobits_response_to_error (code : Nat) : PushResult Unit :=
  match code with
  | 200 => Except.ok ()
  | 404 => Except.error PushError.TokenBlocked
  | 400 => Except.error PushError.PushEndpointPersistent
  | 500 => Except.error PushError.PushEndpointTmp
  | code => Except.error (PushError.Unknown code)

/-- The error kinds of the HTTP client distinguished by send through the
is_timeout and is_connect predicates. -/
inductive HttpSendError where
  | timeout
  | connectRefused
  | otherNetworkError
deriving DecidableEq, Repr

/-- Outcome of the HTTP interaction inside send: the POST itself fails with
a network-level error, or the response body fails to parse as an
AcrobitsResponse, or a response is parsed. -/
inductive HttpOutcome where
  | sendFailed (e : HttpSendError)
  | parseFailed
  | parsed (r : AcrobitsResponse)
deriving DecidableEq, Repr

/-- The request payload built at the top of FpushAcrobits::send
(fpush-acrobits/src/push.rs): fixed verb NotifyGenericTextMessage, the
configured application id, the token argument, fixed message New Message. -/
def FpushAcrobits.buildRequest (self : FpushAcrobits) (token : String) :
    AcrobitsRequest :=
  { verb := "NotifyGenericTextMessage"
    app_id := self.config.app_id
    device_token := token
    message := "New Message" }

/-- FpushAcrobits::send (fpush-acrobits/src/push.rs), with the network
interaction abstracted as an HttpOutcome input: a failed POST is answered
with PushEndpointTmp in both arms of the timeout-or-connect test, a body
that fails to parse with PushEndpointTmp, and a parsed response through
map_acrobits_response_to_error on its code. -/
def FpushAcrobits.send (self : FpushAcrobits) (token : String)
    (http : HttpOutcome) : PushResult Unit :=
  let _request := self.buildRequest token
  match http with
  | HttpOutcome.sendFailed e =>
      if e = HttpSendError.timeout ∨ e = HttpSendError.connectRefused then
        Except.error PushError.PushEndpointTmp
      else
        Except.error PushError.PushEndpointTmp
  | HttpOutcome.parseFailed => Except.error PushError.PushEndpointTmp
  | HttpOutcome.parsed r => map_acrobits_response_to_error r.code

/-- Observable actions of one iteration of the connection-supervisor loop in
main (fpush/src/main.rs): a connection attempt via
init_component_connection, a backoff sleep for the given duration, or
running message_loop_main_thread until it returns. -/
inductive SupEvent where
  | connectAttempt
  | sleep (duration : Nat)
  | messageLoop
deriving DecidableEq, Repr

/-- One iteration of the loop in main (fpush/src/main.rs): attempt
init_component_connection; on Err sleep the configured
timeout xmppconnection_error duration and continue; on Ok run
message_loop_main_thread until it returns and continue. backoff is the
configured reconnection interval, connectSucceeds tells whether this
iteration's connection attempt succeeds. -/
def supervisorIteration (backoff : Nat) (connectSucceeds : Bool) :
    List SupEvent :=
  if connectSucceeds then
    [SupEvent.connectAttempt, SupEvent.messageLoop]
  else
    [SupEvent.connectAttempt, SupEvent.sleep backoff]

/-- Whether an iteration of the supervisor loop leaves the loop: the body of
the loop in main (fpush/src/main.rs) has no break and no return on either
branch, so no iteration exits, whatever the connection attempt's outcome. -/
def supervisorIterationExits (connectSucceeds : Bool) : Bool :=
  match connectSucceeds with
  | true => false
  | false => false

/-- The supervisor's unbounded behaviour: the events of the n-th loop
iteration, given for each n whether the n-th connection attempt succeeds.
The trace is total on Nat: an iteration exists for every n. -/
def supervisorTrace (backoff : Nat) (connectOk : Nat → Bool) (n : Nat) :
    List SupEvent :=
  supervisorIteration backoff (connectOk n)

/-- FetchMessagesRequest (fpush/src/http_server.rs): last_id and
last_sent_id are optional with serde defaults. -/
structure FetchMessagesRequest where
  username : String
  password : String
  last_id : Option String
  last_sent_id : Option String
  device : String
deriving DecidableEq, Repr

/-- SmsMessage (fpush/src/http_server.rs). -/
structure SmsMessage where
  sms_id : String
  sending_date : String
  sender : Option String
  recipient : Option String
  sms_text : String
  content_type : String
  disposition_notification : Option Bool
  displayed : Option Bool
  stream_id : Option String
deriving DecidableEq, Repr

/-- FetchMessagesResponse (fpush/src/http_server.rs). -/
structure FetchMessagesResponse where
  date : String
  received_smss : List SmsMessage
  sent_smss : List SmsMessage
deriving DecidableEq, Repr

/-- Body of an HTTP response from fetch_messages: either the one-field
error object built by the failure paths, or a FetchMessagesResponse. -/
inductive HttpBody where
  | errorBody (error : String)
  | messages (r : FetchMessagesResponse)
deriving DecidableEq, Repr

/-- An HTTP response of the demonstration endpoint: status code and body. -/
structure HttpResp where
  status : Nat
  body : HttpBody
deriving DecidableEq, Repr

/-- The demo received message pushed by fetch_messages
(fpush/src/http_server.rs). -/
def demoReceivedMessage : SmsMessage :=
  { sms_id := "received-1001"
    sending_date := "2024-01-15T10:30:00Z"
    sender := some "+1234567890"
    recipient := none
    sms_text := "Hello, this is a demo received message!"
    content_type := "text/plain"
    disposition_notification := some false
    displayed := some false
    stream_id := some "stream-recv-1" }

/-- The demo sent message pushed by fetch_messages
(fpush/src/http_server.rs). -/
def demoSentMessage : SmsMessage :=
  { sms_id := "sent-2001"
    sending_date := "2024-01-15T11:45:00Z"
    sender := none
    recipient := some "+9876543210"
    sms_text := "This is a demo sent message!"
    content_type := "text/plain"
    disposition_notification := some true
    displayed := none
    stream_id := some "stream-sent-1" }

/-- Insertion step of the stable sort on sending_date. -/
def insertBySendingDate (m : SmsMessage) : List SmsMessage → List SmsMessage
  | [] => [m]
  | x :: xs =>
      if x.sending_date < m.sending_date then x :: insertBySendingDate m xs
      else m :: x :: xs

/-- The sort_by call on sending_date in fetch_messages
(fpush/src/http_server.rs), as a stable insertion sort. -/
def sortBySendingDate : List SmsMessage → List SmsMessage
  | [] => []
  | x :: xs => insertBySendingDate x (sortBySendingDate xs)

/-- The Rust str starts_with test on strings, modelled as a character-list
prefix test so that it evaluates structurally. -/
def strStartsWith (s p : String) : Bool :=
  p.data.isPrefixOf s.data

/-- The condition guarding each demo message in fetch_messages
(fpush/src/http_server.rs): the optional id is None, or is Some of an empty
string. -/
def lastIdMissingOrEmpty : Option String → Bool
  | none => true
  | some s => s.isEmpty

/-- The Content-Type header as the fetch_messages handler observes it
(fpush/src/http_server.rs): absent, or present but with a value that
HeaderValue to_str cannot read as a string, or present with a readable
value. -/
inductive ContentTypeHeader where
  | absent
  | unreadable
  | value (s : String)
deriving DecidableEq, Repr

/-- The part of fetch_messages after the Content-Type checks
(fpush/src/http_server.rs): 400 when the body is absent, 401 when username
or password is empty, and otherwise 200 with the demo messages, each list
sorted by sending date. -/
def fetchMessagesBody (body : Option FetchMessagesRequest) (now : String) :
    HttpResp :=
  match body with
  | none =>
      { status := 400, body := HttpBody.errorBody "Invalid JSON body" }
  | some b =>
      if b.username.isEmpty || b.password.isEmpty then
        { status := 401
          body := HttpBody.errorBody
            "Invalid credentials: username and password must not be empty" }
      else
        let received_smss :=
          if lastIdMissingOrEmpty b.last_id then [demoReceivedMessage]
          else []
        let sent_smss :=
          if lastIdMissingOrEmpty b.last_sent_id then [demoSentMessage]
          else []
        { status := 200
          body := HttpBody.messages
            { date := now
              received_smss := sortBySendingDate received_smss
              sent_smss := sortBySendingDate sent_smss } }

/-- The fetch_messages handler (fpush/src/http_server.rs). Inputs: the
Content-Type header as observed, the body when the framework's JSON
extraction succeeded, and the formatted current time. The handler answers
415 when the header is absent, or when its value is readable and does not
start with application/json; when the value is present but unreadable the
nested if-let tests both fail and control falls through to the body
handling, as it does for a readable value starting with application/json. -/
def fetch_messages (contentType : ContentTypeHeader)
    (body : Option FetchMessagesRequest) (now : String) : HttpResp :=
  match contentType with
  | ContentTypeHeader.absent =>
      { status := 415
        body := HttpBody.errorBody "Content-Type must be application/json" }
  | ContentTypeHeader.unreadable => fetchMessagesBody body now
  | ContentTypeHeader.value ct =>
      if strStartsWith ct "application/json" then fetchMessagesBody body now
      else
        { status := 415
          body := HttpBody.errorBody "Content-Type must be application/json" }

/-- Spec-side predicate: a Content-Type header value names the media type
application/json, that is, the value is exactly application/json or is
application/json followed by a parameter list such as a charset. Stated
from the spec's words, for comparison with the handler's check. -/
def mediaTypeIsApplicationJson (ct : String) : Bool :=
  ct == "application/json" || strStartsWith ct "application/json;"

/-- Spec-side status of the body path shared by the amended contract: 400
for an unparseable body, 401 for empty username or password, else 200. -/
def specBodyStatus : Option FetchMessagesRequest → Nat
  | none => 400
  | some b =>
      if b.username.isEmpty || b.password.isEmpty then 401 else 200

/-- Spec-side status contract for fetch_messages, stated from the spec's
words as amended: 415 when the Content-Type header is missing, or when its
value is readable and does not start with application/json; when the header
is present but unreadable, or readable and starting with application/json,
the status is that of the body path: 400 for an unparseable body, 401 for
empty username or password, else 200. -/
def specFetchMessagesStatus :
    ContentTypeHeader → Option FetchMessagesRequest → Nat
  | ContentTypeHeader.absent, _ => 415
  | ContentTypeHeader.unreadable, bodyOpt => specBodyStatus bodyOpt
  | ContentTypeHeader.value ct, bodyOpt =>
      if strStartsWith ct "application/json" then specBodyStatus bodyOpt
      else 415

/-- C1: map_acrobits_response_to_error is a total, deterministic function on
every code in 0..65535: 200 maps to the Ok (delivered) outcome, 404 to
TokenBlocked, 400 to PushEndpointPersistent (the spec's PermanentFailure),
500 to PushEndpointTmp (the spec's TransientFailure), and every other code
to Unknown carrying that code. -/
theorem map_acrobits_total_on_u16 (code : Nat) (h : code < 65536) :
    map_acrobits_response_to_error code =
      if code = 200 then Except.ok ()
      else if code = 404 then Except.error PushError.TokenBlocked
      else if code = 400 then Except.error PushError.PushEndpointPersistent
      else if code = 500 then Except.error PushError.PushEndpointTmp
      else Except.error (PushError.Unknown code) := by
  unfold map_acrobits_response_to_error
  split <;> simp_all

/-- Witness for C1 at the concrete code 302. -/
theorem map_acrobits_total_on_u16_witness :
    302 < 65536 ∧
    map_acrobits_response_to_error 302 =
      (if 302 = 200 then Except.ok ()
       else if 302 = 404 then Except.error PushError.TokenBlocked
       else if 302 = 400 then Except.error PushError.PushEndpointPersistent
       else if 302 = 500 then Except.error PushError.PushEndpointTmp
       else Except.error (PushError.Unknown 302)) :=
  ⟨by decide, map_acrobits_total_on_u16 302 (by decide)⟩

/-- C4: init on any configuration whose application id is the empty string
fails with the CertLoading error (the spec's InitFailure) and so yields no
backend instance: the error constructor of the result carries none. -/
theorem init_fails_on_empty_app_id (config : AcrobitsConfig)
    (h : config.app_id = "") :
    FpushAcrobits.init config = Except.error PushError.CertLoading := by
  unfold FpushAcrobits.init
  rw [h]
  rfl

/-- Witness for C4 at a concrete configuration with empty app id. -/
theorem init_fails_on_empty_app_id_witness :
    ({ endpoint := "https://push.example.test/send", app_id := "" } :
        AcrobitsConfig).app_id = "" ∧
    FpushAcrobits.init
        { endpoint := "https://push.example.test/send", app_id := "" } =
      Except.error PushError.CertLoading :=
  ⟨rfl, init_fails_on_empty_app_id
    { endpoint := "https://push.example.test/send", app_id := "" } rfl⟩

/-- C5: send maps every network-level failure of the POST and every
response body that fails to parse to PushEndpointTmp (the spec's
TransientFailure), and on every possible HTTP interaction it returns a
value of the outcome taxonomy, ok or a PushError, never an unhandled
fault. -/
theorem send_failures_are_transient (self : FpushAcrobits) (token : String) :
    (∀ e, self.send token (HttpOutcome.sendFailed e) =
        Except.error PushError.PushEndpointTmp) ∧
    self.send token HttpOutcome.parseFailed =
        Except.error PushError.PushEndpointTmp ∧
    ∀ http, (∃ v, self.send token http = Except.ok v) ∨
        ∃ err, self.send token http = Except.error err := by
  refine ⟨?_, rfl, ?_⟩
  · intro e
    cases e <;> rfl
  · intro http
    cases hr : self.send token http with
    | error err => exact Or.inr ⟨err, rfl⟩
    | ok v => exact Or.inl ⟨v, rfl⟩

/-- C6: the outcome of send on a parsed provider response depends only on
its numeric code field: two parsed responses with the same code and
different free-text response fields give the same outcome. -/
theorem send_ignores_response_text (self : FpushAcrobits) (token : String)
    (r1 r2 : AcrobitsResponse) (hcode : r1.code = r2.code)
    (hresp : r1.response ≠ r2.response) :
    self.send token (HttpOutcome.parsed r1) =
      self.send token (HttpOutcome.parsed r2) := by
  simp [FpushAcrobits.send, hcode]

/-- Witness for C6: two concrete responses sharing code 404 with different
texts. -/
theorem send_ignores_response_text_witness :
    ({ code := 404, response := "gone" } : AcrobitsResponse).code =
      ({ code := 404, response := "device removed" } : AcrobitsResponse).code ∧
    ({ code := 404, response := "gone" } : AcrobitsResponse).response ≠
      ({ code := 404, response := "device removed" } : AcrobitsResponse).response ∧
    ({ config := AcrobitsConfig.default } : FpushAcrobits).send "tok-1"
        (HttpOutcome.parsed { code := 404, response := "gone" }) =
      ({ config := AcrobitsConfig.default } : FpushAcrobits).send "tok-1"
        (HttpOutcome.parsed { code := 404, response := "device removed" }) :=
  ⟨rfl, by decide,
    send_ignores_response_text { config := AcrobitsConfig.default } "tok-1"
      { code := 404, response := "gone" }
      { code := 404, response := "device removed" } rfl (by decide)⟩

/-- C7: for every backend instance and token, the serialized request
payload has exactly the four fields verb, AppId, DeviceToken and Message,
holding the fixed verb NotifyGenericTextMessage, the configured application
id, the token argument of send, and the fixed body New Message. -/
theorem request_payload_fields (self : FpushAcrobits) (token : String) :
    (self.buildRequest token).toJsonFields =
      [("verb", "NotifyGenericTextMessage"),
       ("AppId", self.config.app_id),
       ("DeviceToken", token),
       ("Message", "New Message")] := rfl

/-- C9: the default AcrobitsConfig carries the default provider endpoint
URL and an empty application id, and init applied to it returns the
CertLoading error, yielding no backend instance. -/
theorem init_default_config_fails :
    AcrobitsConfig.default.endpoint =
      "https://pnm.cloudsoftphone.com/pnm2/send" ∧
    AcrobitsConfig.default.app_id = "" ∧
    FpushAcrobits.init AcrobitsConfig.default =
      Except.error PushError.CertLoading :=
  ⟨rfl, rfl, rfl⟩

/-- C2: if every connection attempt fails, every iteration of the
supervisor loop consists of exactly a connection attempt followed by a
sleep of exactly the configured backoff interval, and no iteration exits
the loop: the supervisor retries indefinitely and never terminates. -/
theorem supervisor_retries_forever (backoff : Nat) (connectOk : Nat → Bool)
    (h : ∀ n, connectOk n = false) (n : Nat) :
    supervisorTrace backoff connectOk n =
      [SupEvent.connectAttempt, SupEvent.sleep backoff] ∧
    supervisorIterationExits (connectOk n) = false := by
  constructor
  · simp [supervisorTrace, supervisorIteration, h n]
  · cases hc : connectOk n <;> rfl

/-- Witness for C2 with backoff 7, an always-failing connect, iteration 3. -/
theorem supervisor_retries_forever_witness :
    supervisorTrace 7 (fun _ => false) 3 =
      [SupEvent.connectAttempt, SupEvent.sleep 7] ∧
    supervisorIterationExits ((fun _ => false) 3) = false :=
  supervisor_retries_forever 7 (fun _ => false) (fun _ => rfl) 3

/-- C3 counterexample: with backoff interval 5 and a connection attempt
that succeeds, the iteration that runs the message loop to its end contains
no sleep event at all, so no backoff sleep separates the end of the message
loop from the next connection attempt. -/
theorem supervisor_no_sleep_after_message_loop :
    supervisorTrace 5 (fun _ => true) 0 =
      [SupEvent.connectAttempt, SupEvent.messageLoop] ∧
    SupEvent.sleep 5 ∉ supervisorTrace 5 (fun _ => true) 0 := by
  constructor
  · rfl
  · decide

/-- C3 amended: when the n-th connection attempt succeeds, that iteration
is exactly the connection attempt followed by the message loop run to
completion, with no sleep of any duration: after the message loop ends the
supervisor immediately makes the next connection attempt, and the
configured interval is slept only after a failed connection attempt. -/
theorem supervisor_immediate_reconnect_after_loop (backoff : Nat)
    (connectOk : Nat → Bool) (n : Nat) (h : connectOk n = true) :
    supervisorTrace backoff connectOk n =
      [SupEvent.connectAttempt, SupEvent.messageLoop] ∧
    ∀ d, SupEvent.sleep d ∉ supervisorTrace backoff connectOk n := by
  have ht : supervisorTrace backoff connectOk n =
      [SupEvent.connectAttempt, SupEvent.messageLoop] := by
    simp [supervisorTrace, supervisorIteration, h]
  refine ⟨ht, ?_⟩
  intro d
  rw [ht]
  simp

/-- Witness for C3 amended with backoff 5, an always-succeeding connect,
iteration 0. -/
theorem supervisor_immediate_reconnect_after_loop_witness :
    supervisorTrace 5 (fun _ => true) 0 =
      [SupEvent.connectAttempt, SupEvent.messageLoop] ∧
    ∀ d, SupEvent.sleep d ∉ supervisorTrace 5 (fun _ => true) 0 :=
  supervisor_immediate_reconnect_after_loop 5 (fun _ => true) 0 rfl

/-- C8 counterexample: two requests whose Content-Type is not
application/json yet which are not answered with 415. First, the readable
value application/jsonx does not name the media type application/json, but
it passes the handler's starts-with test, and with the body absent, as it
is when the framework's JSON extraction refuses that content type, the
handler answers 400. Second, a header that is present but whose value is
not readable as a string makes both nested if-let tests fail, control falls
through past the 415 check, and the handler answers 400 on an absent
body. -/
theorem fetch_messages_nonjson_not_always_415 :
    mediaTypeIsApplicationJson "application/jsonx" = false ∧
    (fetch_messages (ContentTypeHeader.value "application/jsonx") none
        "2024-01-15T12:00:00Z").status = 400 ∧
    (fetch_messages (ContentTypeHeader.value "application/jsonx") none
        "2024-01-15T12:00:00Z").status ≠ 415 ∧
    (fetch_messages ContentTypeHeader.unreadable none
        "2024-01-15T12:00:00Z").status = 400 ∧
    (fetch_messages ContentTypeHeader.unreadable none
        "2024-01-15T12:00:00Z").status ≠ 415 :=
  ⟨by decide, by decide, by decide, by decide, by decide⟩

/-- C8 amended: the handler answers 415 exactly when the Content-Type
header is missing, or when its value is readable and does not start with
the string application/json (rather than: whenever the content type does
not name the media type application/json); when the header value is
unreadable as a string, or readable and starting with application/json, it
answers 400 for an unparseable body, 401 for an empty username or password,
and then the body is the JSON object carrying the error field, and
otherwise 200. -/
theorem fetch_messages_status_correct (ct : ContentTypeHeader)
    (b : Option FetchMessagesRequest) (now : String) :
    (fetch_messages ct b now).status = specFetchMessagesStatus ct b ∧
    (specFetchMessagesStatus ct b = 401 →
      (fetch_messages ct b now).body =
        HttpBody.errorBody
          "Invalid credentials: username and password must not be empty") := by
  have hbody : ∀ bo, (fetchMessagesBody bo now).status = specBodyStatus bo ∧
      (specBodyStatus bo = 401 →
        (fetchMessagesBody bo now).body =
          HttpBody.errorBody
            "Invalid credentials: username and password must not be empty") := by
    intro bo
    cases bo with
    | none => simp [fetchMessagesBody, specBodyStatus]
    | some req =>
        cases hcred : req.username.isEmpty || req.password.isEmpty with
        | true => simp [fetchMessagesBody, specBodyStatus, hcred]
        | false => simp [fetchMessagesBody, specBodyStatus, hcred]
  cases ct with
  | absent => simp [fetch_messages, specFetchMessagesStatus]
  | unreadable => exact hbody b
  | value s =>
      cases hs : strStartsWith s "application/json" with
      | false => simp [fetch_messages, specFetchMessagesStatus, hs]
      | true =>
          have h := hbody b
          simpa [fetch_messages, specFetchMessagesStatus, hs] using h

/-- Witness for C8 amended at a concrete request with empty username. -/
theorem fetch_messages_status_correct_witness :
    (fetch_messages (ContentTypeHeader.value "application/json")
        (some { username := "", password := "pass", last_id := some "",
                last_sent_id := some "", device := "d1" }) "t").status =
      specFetchMessagesStatus (ContentTypeHeader.value "application/json")
        (some { username := "", password := "pass", last_id := some "",
                last_sent_id := some "", device := "d1" }) ∧
    (fetch_messages (ContentTypeHeader.value "application/json")
        (some { username := "", password := "pass", last_id := some "",
                last_sent_id := some "", device := "d1" }) "t").body =
      HttpBody.errorBody
        "Invalid credentials: username and password must not be empty" := by
  have h := fetch_messages_status_correct
    (ContentTypeHeader.value "application/json")
    (some { username := "", password := "pass", last_id := some "",
            last_sent_id := some "", device := "d1" }) "t"
  exact ⟨h.1, h.2 (by decide)⟩

/-- The demo-message guard holds exactly when the optional id is absent or
is the empty string. -/
theorem lastIdMissingOrEmpty_iff (o : Option String) :
    lastIdMissingOrEmpty o = true ↔ (o = none ∨ o = some "") := by
  cases o with
  | none => simp [lastIdMissingOrEmpty]
  | some s => simp [lastIdMissingOrEmpty, String.isEmpty_iff]

/-- C10: for every authorized request (content type accepted, parseable
body, non-empty username and password) the 200 response holds at most one
received and at most one sent record; received_smss is non-empty exactly
when last_id is absent or empty, and sent_smss is non-empty exactly when
last_sent_id is absent or empty. -/
theorem fetch_messages_demo_counts (ct : String) (b : FetchMessagesRequest)
    (now : String) (hct : strStartsWith ct "application/json" = true)
    (hu : b.username.isEmpty = false) (hp : b.password.isEmpty = false) :
    ∃ r : FetchMessagesResponse,
      fetch_messages (ContentTypeHeader.value ct) (some b) now =
        { status := 200, body := HttpBody.messages r } ∧
      r.received_smss.length ≤ 1 ∧ r.sent_smss.length ≤ 1 ∧
      (r.received_smss ≠ [] ↔ (b.last_id = none ∨ b.last_id = some "")) ∧
      (r.sent_smss ≠ [] ↔
        (b.last_sent_id = none ∨ b.last_sent_id = some "")) := by
  refine ⟨{ date := now
            received_smss :=
              if lastIdMissingOrEmpty b.last_id then [demoReceivedMessage]
              else []
            sent_smss :=
              if lastIdMissingOrEmpty b.last_sent_id then [demoSentMessage]
              else [] }, ?_, ?_, ?_, ?_, ?_⟩
  · cases hid : lastIdMissingOrEmpty b.last_id <;>
      cases hsid : lastIdMissingOrEmpty b.last_sent_id <;>
        simp [fetch_messages, fetchMessagesBody, hct, hu, hp, hid, hsid, sortBySendingDate,
          insertBySendingDate]
  · cases hid : lastIdMissingOrEmpty b.last_id <;> simp [hid]
  · cases hsid : lastIdMissingOrEmpty b.last_sent_id <;> simp [hsid]
  · rw [← lastIdMissingOrEmpty_iff]
    cases hid : lastIdMissingOrEmpty b.last_id <;> simp [hid]
  · rw [← lastIdMissingOrEmpty_iff]
    cases hsid : lastIdMissingOrEmpty b.last_sent_id <;> simp [hsid]

/-- A concrete authorized request used to instantiate the demo-count
theorem. -/
def exampleAuthorizedRequest : FetchMessagesRequest :=
  { username := "user"
    password := "pass"
    last_id := some ""
    last_sent_id := some "xyz"
    device := "d1" }

/-- Witness for C10 at a concrete authorized request whose last_id is empty
and whose last_sent_id is non-empty. -/
theorem fetch_messages_demo_counts_witness :
    strStartsWith "application/json" "application/json" = true ∧
    exampleAuthorizedRequest.username.isEmpty = false ∧
    exampleAuthorizedRequest.password.isEmpty = false ∧
    ∃ r : FetchMessagesResponse,
      fetch_messages (ContentTypeHeader.value "application/json")
          (some exampleAuthorizedRequest) "t" =
        { status := 200, body := HttpBody.messages r } ∧
      r.received_smss.length ≤ 1 ∧ r.sent_smss.length ≤ 1 ∧
      (r.received_smss ≠ [] ↔
        (exampleAuthorizedRequest.last_id = none ∨
         exampleAuthorizedRequest.last_id = some "")) ∧
      (r.sent_smss ≠ [] ↔
        (exampleAuthorizedRequest.last_sent_id = none ∨
         exampleAuthorizedRequest.last_sent_id = some "")) :=
  ⟨by decide, rfl, rfl,
    fetch_messages_demo_counts "application/json" exampleAuthorizedRequest "t"
      (by decide) rfl rfl⟩
